import Mathlib

/-!
Verification of the `testchain` process-supervisor scripts.

The first part embeds `src/manage_anvil.py`: the functions `start_anvil`,
`stop_anvil` and `view_logs` are modelled as pure state transformers over the
three on-disk files (PID file, snapshot/state file, log file), with the
behaviour of the external world (the `anvil`/`cast`/`tail` binaries, the
liveness of the recorded pid) supplied by an explicit environment record.
An unhandled Python exception that would crash the supervisor is modelled as
the `Option.none` result.

The second part embeds `eth_to_wei` from `src/simple_setup_geth.py`,
including the relevant fragment of Python's `decimal` module: exact
construction from a string, multiplication under the default context
(precision 28, `ROUND_HALF_EVEN`, `Emax = 999999`), and `.0f` formatting.
-/

/-! ## Configuration constants (manage_anvil.py lines 9-13) -/

def ANVIL_STATE_FILE : String := "anvil_state.json"

def ANVIL_HOST : String := "0.0.0.0"

def ANVIL_PORT : Nat := 8545

def ANVIL_PID_FILE : String := "anvil.pid"

def ANVIL_LOG_FILE : String := "anvil.log"

/-! ## File-system state

`none` means the file does not exist; `some c` means it exists with content
`c`.  The three fields are the three files named by the configuration
constants above. -/

structure FS where
  pidFile : Option String
  stateFile : Option String
  logFile : Option String
  deriving DecidableEq, Repr

/-! ## Python `int(...)` on a string (ASCII fragment)

`int(f.read())` at manage_anvil.py line 80: leading/trailing whitespace is
allowed, then an optional sign, then ASCII digits in which single
underscores may appear between two digits.  Any other content raises
`ValueError`, modelled as `none`.  (Python also accepts non-ASCII Unicode
digits; only the ASCII fragment is modelled, which is what PID files
written by this program ever contain.) -/

def isWsChar (c : Char) : Bool :=
  c = ' ' ∨ c = '\t' ∨ c = '\n' ∨ c = '\r' ∨ c = '\x0b' ∨ c = '\x0c'

def isDigitChar (c : Char) : Bool := '0' ≤ c ∧ c ≤ '9'

def digitVal (c : Char) : Nat := c.toNat - '0'.toNat

def stripWs (cs : List Char) : List Char :=
  ((cs.dropWhile isWsChar).reverse.dropWhile isWsChar).reverse

/-- Digit groups separated by single underscores; each underscore must be
between two digits.  Returns the value read, or `none` on a malformed
tail.  `acc` is the value of the digits already consumed. -/
def pyIntDigits : List Char → Nat → Option Nat
  | [], acc => some acc
  | '_' :: c :: cs, acc =>
      if isDigitChar c then pyIntDigits cs (acc * 10 + digitVal c) else none
  | '_' :: [], _ => none
  | c :: cs, acc =>
      if isDigitChar c then pyIntDigits cs (acc * 10 + digitVal c) else none

/-- Python `int(s)` for a text string (ASCII fragment); `none` models
`ValueError`. -/
def pyInt (s : String) : Option Int :=
  match stripWs s.toList with
  | '+' :: c :: cs =>
      if isDigitChar c then (pyIntDigits cs (digitVal c)).map (fun n => (n : Int)) else none
  | '-' :: c :: cs =>
      if isDigitChar c then (pyIntDigits cs (digitVal c)).map (fun n => -(n : Int)) else none
  | c :: cs =>
      if isDigitChar c then (pyIntDigits cs (digitVal c)).map (fun n => (n : Int)) else none
  | [] => none

/-! ## start_anvil (manage_anvil.py lines 15-69) -/

/-- External-world behaviour relevant to `start_anvil`: whether the `anvil`
binary is on the PATH (line 65: `FileNotFoundError`), whether the spawn
otherwise succeeds (line 68: any other `Exception`), and the pid the OS
assigns to a successful spawn. -/
structure StartEnv where
  anvilAvailable : Bool
  spawnOk : Bool
  newPid : Int

inductive StartResult where
  /-- Line 19-21: PID file already exists, early return. -/
  | alreadyRunning : StartResult
  /-- Line 65-67: `FileNotFoundError` — the `anvil` command was not found. -/
  | binaryNotFound : StartResult
  /-- Line 68-69: any other launch `Exception`. -/
  | spawnFailed : StartResult
  /-- Lines 48-63: spawn succeeded with this pid, launched with this
  command line. -/
  | started (pid : Int) (cmd : List String) : StartResult
  deriving DecidableEq, Repr

/-- Lines 23-27: the spawn command.  `--load-state` is appended iff the
snapshot file exists; its content is never read. -/
def launchCommand (fs : FS) : List String :=
  let command := ["anvil", "--host", ANVIL_HOST, "--port", toString ANVIL_PORT]
  if fs.stateFile.isSome then command ++ ["--load-state", ANVIL_STATE_FILE] else command

/-- `start_anvil()`.  Line 35 opens the log file in append mode (`'a'`):
the file is created when absent and its existing content is kept.  The PID
file is written (line 56-57) only after `subprocess.Popen` has returned. -/
def start_anvil (env : StartEnv) (fs : FS) : StartResult × FS :=
  if fs.pidFile.isSome then (.alreadyRunning, fs)
  else
    let fs1 : FS := { fs with logFile := some (fs.logFile.getD "") }
    if env.anvilAvailable = false then (.binaryNotFound, fs1)
    else if env.spawnOk = false then (.spawnFailed, fs1)
    else (.started env.newPid (launchCommand fs),
          { fs1 with pidFile := some (toString env.newPid) })

/-! ## stop_anvil (manage_anvil.py lines 71-105) -/

/-- Outcome of `os.kill(pid, SIGTERM)` at line 92. -/
inductive KillOutcome where
  | ok : KillOutcome
  /-- `ProcessLookupError`: no process with this pid. -/
  | noProcess : KillOutcome
  /-- Any other `Exception`, e.g. `PermissionError`. -/
  | otherError : KillOutcome
  deriving DecidableEq, Repr

/-- External-world behaviour relevant to `stop_anvil`: whether the `cast`
binary exists (line 97), whether the `anvil_dumpState` RPC call succeeds
(line 99: `CalledProcessError` on a non-zero exit), the dump's stdout on
success, the bytes the failed dump had already written to the (truncated)
state file before failing, and the outcome of signalling each pid. -/
structure StopEnv where
  castAvailable : Bool
  dumpOk : Bool
  dumpOutput : String
  dumpWritten : String
  killResult : Int → KillOutcome

inductive StopResult where
  /-- Lines 75-77: PID file absent, early return. -/
  | notRunning : StopResult
  /-- Lines 97-98: `FileNotFoundError` — the `cast` command was not found. -/
  | castNotFound : StopResult
  /-- Lines 99-100: `CalledProcessError` from the dump subprocess. -/
  | dumpFailed : StopResult
  /-- Lines 101-103: `ProcessLookupError` — stale PID file removed. -/
  | staleRemoved : StopResult
  /-- Lines 104-105: any other `Exception` during the try block. -/
  | otherError : StopResult
  /-- Lines 91-95: dump written, process signalled, PID file removed. -/
  | success : StopResult
  deriving DecidableEq, Repr

structure StopOutcome where
  result : StopResult
  fs : FS
  /-- The pids `os.kill` was invoked on. -/
  killCalls : List Int
  deriving DecidableEq, Repr

/-- `stop_anvil()`.  `none` models an unhandled exception that crashes the
supervisor: `pid = int(f.read())` at line 80 runs *before* the
`try` block, so a PID file whose content is not an integer raises an
uncaught `ValueError`.  Inside the try block, line 87 opens the state file
with mode `"w"` — truncating it — *before* the dump subprocess runs, so
on every dump attempt the prior snapshot content is already gone: it
becomes `""` when `cast` is missing (the subprocess never starts) and the
partial output `env.dumpWritten` when the dump fails.  `os.kill` is
reached only when the dump succeeded, and the PID file is removed only on
the success path (line 94) and the `ProcessLookupError` path (line 103). -/
def stop_anvil (env : StopEnv) (fs : FS) : Option StopOutcome :=
  match fs.pidFile with
  | none => some ⟨.notRunning, fs, []⟩
  | some content =>
    match pyInt content with
    | none => none
    | some pid =>
      if env.castAvailable = false then
        some ⟨.castNotFound, { fs with stateFile := some "" }, []⟩
      else if env.dumpOk = false then
        some ⟨.dumpFailed, { fs with stateFile := some env.dumpWritten }, []⟩
      else
        let fs1 : FS := { fs with stateFile := some env.dumpOutput }
        match env.killResult pid with
        | .ok => some ⟨.success, { fs1 with pidFile := none }, [pid]⟩
        | .noProcess => some ⟨.staleRemoved, { fs1 with pidFile := none }, [pid]⟩
        | .otherError => some ⟨.otherError, fs1, [pid]⟩

/-! ## The dump invocation (manage_anvil.py lines 83-88) -/

def rpc_url_local : String := "http://127.0.0.1:" ++ toString ANVIL_PORT

def command_dump : List String :=
  ["cast", "rpc", "anvil_dumpState", "--rpc-url", rpc_url_local]

/-- The keyword arguments of a `subprocess.run` call that matter here. -/
structure SubprocessRunCall where
  args : List String
  checkFlag : Bool
  textFlag : Bool
  timeoutArg : Option Nat
  deriving DecidableEq, Repr

/-- Line 88: `subprocess.run(command_dump, stdout=state_file, check=True,
text=True)` — no `timeout=` keyword is passed. -/
def dumpStateRunCall : SubprocessRunCall :=
  { args := command_dump, checkFlag := true, textFlag := true, timeoutArg := none }

/-! ## view_logs (manage_anvil.py lines 107-131) -/

structure ViewEnv where
  tailAvailable : Bool

inductive ViewResult where
  | logMissing : ViewResult
  | tailNotFound : ViewResult
  | streamed : ViewResult
  deriving DecidableEq, Repr

/-- `view_logs()` (POSIX branch).  Every error branch is caught
(`KeyboardInterrupt`, `FileNotFoundError`), so the function is total: it
never raises out of itself. -/
def view_logs (env : ViewEnv) (fs : FS) : ViewResult × FS :=
  if fs.logFile.isNone then (.logMissing, fs)
  else if env.tailAvailable = false then (.tailNotFound, fs)
  else (.streamed, fs)

/-! ## Python `decimal` fragment (simple_setup_geth.py lines 15-30)

`eth_to_wei` runs `Decimal(eth_str) * Decimal("1e18")` under the default
decimal context and formats the product with `f'{...:.0f}'`.  The
fragment of the `decimal` module this exercises is embedded below:
values, exact construction from a string, context multiplication
(precision 28, rounding `ROUND_HALF_EVEN`, `Emax = 999999`,
`Emin = -999999`), and fixed-point formatting with zero decimal places. -/

/-- A Python `Decimal` value: a finite value `(-1)^neg * coeff * 10^exp`,
a signed infinity, or a (quiet or signaling) NaN with a payload. -/
inductive PyDec where
  | finite (neg : Bool) (coeff : Nat) (exp : Int) : PyDec
  | infty (neg : Bool) : PyDec
  | nan (neg : Bool) (payload : Nat) (signaling : Bool) : PyDec
  deriving DecidableEq, Repr

def decPrec : Nat := 28

def decEmax : Int := 999999

def decEmin : Int := -999999

/-- `Etiny = Emin - prec + 1`. -/
def decEtiny : Int := decEmin - (decPrec : Int) + 1

/-- `Etop = Emax - prec + 1`. -/
def decEtop : Int := decEmax - (decPrec : Int) + 1

/-- Number of decimal digits of `n` (1 for `n = 0`), as in the length of
the coefficient string of a `Decimal`. -/
def natDigits (n : Nat) : Nat := (Nat.toDigits 10 n).length

/-- `n / 10^k` rounded half-to-even (`ROUND_HALF_EVEN` on the magnitude). -/
def roundHalfEvenDiv (n k : Nat) : Nat :=
  let d := 10 ^ k
  let q := n / d
  let r := n % d
  if 2 * r < d then q
  else if d < 2 * r then q + 1
  else if q % 2 = 0 then q else q + 1

/-- Exceptions the default context traps into Python exceptions. -/
inductive DecErr where
  | invalidOp : DecErr
  | overflow : DecErr
  deriving DecidableEq, Repr

/-- `_fix`: bring an exact finite result into the context — round the
coefficient to at most `decPrec` digits (half-even), detect overflow
(trapped by default, so it raises), and round subnormal results at
`Etiny` (Underflow is not trapped by default, so no exception). -/
def fixFinite (neg : Bool) (c : Nat) (e : Int) : Except DecErr PyDec :=
  if c = 0 then
    .ok (.finite neg 0 (min (max e decEtiny) decEmax))
  else
    let expMin : Int := (natDigits c : Int) + e - (decPrec : Int)
    if decEtop < expMin then .error .overflow
    else
      let expMin1 := max expMin decEtiny
      if e < expMin1 then
        let k := (expMin1 - e).toNat
        let c1 := roundHalfEvenDiv c k
        let c2 := if decPrec < natDigits c1 then c1 / 10 else c1
        let e2 := if decPrec < natDigits c1 then expMin1 + 1 else expMin1
        if decEtop < e2 then .error .overflow else .ok (.finite neg c2 e2)
      else .ok (.finite neg c e)

/-- Context multiplication of two `Decimal`s.  A signaling NaN and
`0 * Infinity` raise `InvalidOperation`; a quiet NaN propagates (the
first operand's NaN wins); overflow raises. -/
def ctxMul (x y : PyDec) : Except DecErr PyDec :=
  match x, y with
  | .nan _ _ true, _ => .error .invalidOp
  | _, .nan _ _ true => .error .invalidOp
  | .nan n p false, _ => .ok (.nan n p false)
  | _, .nan n p false => .ok (.nan n p false)
  | .infty n1, .infty n2 => .ok (.infty (xor n1 n2))
  | .infty n1, .finite n2 c _ =>
      if c = 0 then .error .invalidOp else .ok (.infty (xor n1 n2))
  | .finite n1 c _, .infty n2 =>
      if c = 0 then .error .invalidOp else .ok (.infty (xor n1 n2))
  | .finite n1 c1 e1, .finite n2 c2 e2 => fixFinite (xor n1 n2) (c1 * c2) (e1 + e2)

/-! ### Parsing a numeric string (the `Decimal` constructor)

Per the `decimal` documentation, leading and trailing whitespace and all
underscores are removed, then the string must match (case-insensitively)

  sign? ( digits [. digits?] | . digits ) [ (e|E) sign? digits ]
  | sign? (Inf | Infinity) | sign? (NaN | sNaN) digits?

Construction is exact: no context rounding is applied. -/

def takeDigits : List Char → List Char × List Char
  | [] => ([], [])
  | c :: cs =>
      if isDigitChar c then
        let p := takeDigits cs
        (c :: p.1, p.2)
      else ([], c :: cs)

def digitsToNat (ds : List Char) : Nat :=
  ds.foldl (fun a c => a * 10 + digitVal c) 0

/-- Parse the significand: returns the coefficient digits-as-a-number and
the number of fractional digits. -/
def parseSignificand (cs : List Char) : Option ((Nat × Nat) × List Char) :=
  let p := takeDigits cs
  match p.2 with
  | '.' :: r2 =>
      let q := takeDigits r2
      if p.1.isEmpty ∧ q.1.isEmpty then none
      else some ((digitsToNat (p.1 ++ q.1), q.1.length), q.2)
  | r1 => if p.1.isEmpty then none else some ((digitsToNat p.1, 0), r1)

/-- Parse an optional exponent part `(e|E) sign? digits` (input already
lower-cased). -/
def parseExponent (cs : List Char) : Option (Int × List Char) :=
  match cs with
  | 'e' :: r1 =>
      match r1 with
      | '+' :: r2 =>
          let q := takeDigits r2
          if q.1.isEmpty then none else some ((digitsToNat q.1 : Int), q.2)
      | '-' :: r2 =>
          let q := takeDigits r2
          if q.1.isEmpty then none else some (-(digitsToNat q.1 : Int), q.2)
      | _ =>
          let q := takeDigits r1
          if q.1.isEmpty then none else some ((digitsToNat q.1 : Int), q.2)
  | _ => some (0, cs)

/-- Parse the body after the optional sign (input already lower-cased). -/
def parseDecBody (neg : Bool) (cs : List Char) : Option PyDec :=
  if cs = "inf".toList ∨ cs = "infinity".toList then some (.infty neg)
  else
    match cs with
    | 'n' :: 'a' :: 'n' :: rest =>
        let q := takeDigits rest
        if q.2.isEmpty then some (.nan neg (digitsToNat q.1) false) else none
    | 's' :: 'n' :: 'a' :: 'n' :: rest =>
        let q := takeDigits rest
        if q.2.isEmpty then some (.nan neg (digitsToNat q.1) true) else none
    | _ =>
        match parseSignificand cs with
        | none => none
        | some ((c, fracLen), r1) =>
          match parseExponent r1 with
          | none => none
          | some (e, r2) =>
              if r2.isEmpty then some (.finite neg c (e - (fracLen : Int))) else none

/-- The `Decimal` string constructor; `none` models `InvalidOperation`
(raised as an exception, since `InvalidOperation` is trapped by default). -/
def pyDecimalOfString (s : String) : Option PyDec :=
  let cs := ((stripWs s.toList).filter (fun c => c ≠ '_')).map Char.toLower
  match cs with
  | '+' :: rest => parseDecBody false rest
  | '-' :: rest => parseDecBody true rest
  | rest => parseDecBody false rest

/-! ### Formatting with `f'{d:.0f}'`

Fixed-point presentation with zero decimal places: the value is rounded
half-to-even at exponent 0 and printed without an exponent.  Specials
print as `NaN`/`sNaN` (with any payload digits) and `Infinity`, with a
leading `-` when the sign is negative; a negative zero or a negative
value rounding to zero prints as `-0`. -/
def fmtF0 : PyDec → String
  | .nan neg p s =>
      (if neg then "-" else "") ++ (if s then "sNaN" else "NaN") ++
        (if p = 0 then "" else toString p)
  | .infty neg => (if neg then "-" else "") ++ "Infinity"
  | .finite neg c e =>
      let n := if 0 ≤ e then c * 10 ^ e.toNat else roundHalfEvenDiv c (-e).toNat
      (if neg then "-" else "") ++ toString n

/-! ## eth_to_wei (simple_setup_geth.py lines 15-30) -/

/-- `Decimal("1e18")`. -/
def decimalOneE18 : PyDec := .finite false 1 18

/-- `eth_to_wei(eth_str)`.  The outer `Option` models crashing: the
function catches only `InvalidOperation`, so a `decimal.Overflow` raised
by the multiplication propagates out (`none`).  The inner `Option` is the
Python return value: `None` when the constructor (or the multiplication,
for a signaling NaN or `0 * Infinity`) raises `InvalidOperation`,
otherwise the formatted string. -/
def eth_to_wei (s : String) : Option (Option String) :=
  match pyDecimalOfString s with
  | none => some none
  | some d =>
    match ctxMul d decimalOneE18 with
    | .error .invalidOp => some none
    | .error .overflow => none
    | .ok w => some (some (fmtF0 w))

/-- The claim's notion of the exact conversion, for a string that parses
as the finite decimal `(-1)^neg * c * 10^e`: the decimal-digit string
(no scientific notation) of `s * 10^18` rounded (half-even) to an
integer. -/
def wei_string_exact (neg : Bool) (c : Nat) (e : Int) : String :=
  let e18 := e + 18
  let n := if 0 ≤ e18 then c * 10 ^ e18.toNat else roundHalfEvenDiv c (-e18).toNat
  (if neg then "-" else "") ++ toString n

/-! ## Claim theorems -/

/-- Claim C1, as stated, is false: with a ProcessRecord present and the
dump step failing (dump subprocess exits nonzero, as with an unreachable
RPC endpoint), `stop_anvil` returns from the `except
subprocess.CalledProcessError` handler without ever calling `os.kill`
(`killCalls = []`) and without removing the PID file. -/
theorem C1_counterexample :
    stop_anvil ⟨true, false, "dump", "", fun _ => KillOutcome.ok⟩
        ⟨some "123", some "old", none⟩ =
      some ⟨.dumpFailed, ⟨some "123", some "", none⟩, []⟩ := rfl

/-- Claim C1 (amended): if the state-dump step of `stop()` fails — the
dump tool missing or the dump subprocess failing — `stop()` catches the
error and returns without sending the termination signal and without
clearing the ProcessRecord. -/
theorem C1_amended_dump_failure_aborts_stop (env : StopEnv) (fs : FS)
    (content : String) (pid : Int)
    (hpid : fs.pidFile = some content) (hparse : pyInt content = some pid)
    (hfail : env.castAvailable = false ∨ env.dumpOk = false) :
    ∃ out : StopOutcome, stop_anvil env fs = some out ∧
      out.killCalls = [] ∧ out.fs.pidFile = some content := by
  by_cases hc : env.castAvailable = false
  · refine ⟨⟨.castNotFound, { fs with stateFile := some "" }, []⟩, ?_, rfl, hpid⟩
    simp [stop_anvil, hpid, hparse, hc]
  · rcases hfail with h | h
    · exact absurd h hc
    · refine ⟨⟨.dumpFailed, { fs with stateFile := some env.dumpWritten }, []⟩, ?_, rfl, hpid⟩
      simp [stop_anvil, hpid, hparse, h, hc]

theorem C1_amended_witness :
    pyInt "7" = some 7 ∧
    ∃ out : StopOutcome,
      stop_anvil ⟨true, false, "", "", fun _ => KillOutcome.ok⟩ ⟨some "7", none, none⟩ =
        some out ∧ out.killCalls = [] ∧ out.fs.pidFile = some "7" :=
  ⟨by decide, C1_amended_dump_failure_aborts_stop _ _ "7" 7 rfl (by decide) (Or.inr rfl)⟩

/-- Claim C2, as stated, is false: a previously valid snapshot `"valid"`
is replaced by the failed dump's partial output `"par"`, because the
state file is opened with mode `"w"` (truncating) before the dump
subprocess runs. -/
theorem C2_counterexample :
    stop_anvil ⟨true, false, "dump", "par", fun _ => KillOutcome.ok⟩
        ⟨some "123", some "valid", none⟩ =
      some ⟨.dumpFailed, ⟨some "123", some "par", none⟩, []⟩ ∧
    ("par" : String) ≠ "valid" := ⟨rfl, by decide⟩

/-- Claim C2 (amended): `stop()` truncates the snapshot file before the
dump runs, so a failed capture leaves the file holding the failed dump's
partial output — the previously persisted snapshot content is destroyed,
not preserved. -/
theorem C2_amended_failed_dump_clobbers_snapshot (env : StopEnv) (fs : FS)
    (content : String) (pid : Int)
    (hpid : fs.pidFile = some content) (hparse : pyInt content = some pid)
    (hcast : env.castAvailable = true) (hdump : env.dumpOk = false) :
    stop_anvil env fs =
      some ⟨.dumpFailed, { fs with stateFile := some env.dumpWritten }, []⟩ := by
  simp [stop_anvil, hpid, hparse, hcast, hdump]

theorem C2_amended_witness :
    pyInt "8" = some 8 ∧
    stop_anvil ⟨true, false, "", "part1", fun _ => KillOutcome.ok⟩
        ⟨some "8", some "good", none⟩ =
      some ⟨.dumpFailed, ⟨some "8", some "part1", none⟩, []⟩ :=
  ⟨by decide,
    C2_amended_failed_dump_clobbers_snapshot _ _ "8" 8 rfl (by decide) rfl rfl⟩

/-- Claim C3, as stated, is false: when the recorded pid is dead and the
dump step consequently fails (the dead node's endpoint is unreachable),
`stop()` returns `dumpFailed` — not an "already stopped" report — and the
PID file is not cleared. -/
theorem C3_counterexample :
    stop_anvil ⟨true, false, "", "", fun _ => KillOutcome.noProcess⟩
        ⟨some "7", some "v", none⟩ =
      some ⟨.dumpFailed, ⟨some "7", some "", none⟩, []⟩ ∧
    StopResult.dumpFailed ≠ .staleRemoved := ⟨rfl, by decide⟩

/-- Claim C3 (amended): only when the dump step succeeds does `stop()`
reach the signal step; then a pid with no live process is reported as
already stopped (`ProcessLookupError` handler), the PID file is removed,
and the call returns normally. -/
theorem C3_amended_stale_pid_reconciled_after_dump (env : StopEnv) (fs : FS)
    (content : String) (pid : Int)
    (hpid : fs.pidFile = some content) (hparse : pyInt content = some pid)
    (hcast : env.castAvailable = true) (hdump : env.dumpOk = true)
    (hkill : env.killResult pid = .noProcess) :
    stop_anvil env fs =
      some ⟨.staleRemoved,
        { fs with stateFile := some env.dumpOutput, pidFile := none }, [pid]⟩ := by
  simp [stop_anvil, hpid, hparse, hcast, hdump, hkill]

theorem C3_amended_witness :
    pyInt "9" = some 9 ∧
    stop_anvil ⟨true, true, "blob", "", fun _ => KillOutcome.noProcess⟩
        ⟨some "9", some "v", none⟩ =
      some ⟨.staleRemoved, ⟨none, some "blob", none⟩, [9]⟩ :=
  ⟨by decide,
    C3_amended_stale_pid_reconciled_after_dump _ _ "9" 9 rfl (by decide) rfl rfl rfl⟩

/-- Claim C4, as stated, is false: when the dump step fails, the first
`stop()` leaves the PID file in place, and a second `stop()` fails again
with `dumpFailed` — not `notRunning` — so the clear of the ProcessRecord
is not unconditional. -/
theorem C4_counterexample :
    stop_anvil ⟨true, false, "", "", fun _ => KillOutcome.ok⟩
        ⟨some "9", some "v", none⟩ =
      some ⟨.dumpFailed, ⟨some "9", some "", none⟩, []⟩ ∧
    stop_anvil ⟨true, false, "", "", fun _ => KillOutcome.ok⟩
        ⟨some "9", some "", none⟩ =
      some ⟨.dumpFailed, ⟨some "9", some "", none⟩, []⟩ ∧
    StopResult.dumpFailed ≠ .notRunning := ⟨rfl, rfl, by decide⟩

/-- Claim C4 (amended): the ProcessRecord is cleared only on the paths
where the dump succeeds and the signal step either succeeds or finds the
process already gone; on those paths no record remains and a second
`stop()` in a row reports `notRunning`. -/
theorem C4_amended_idempotent_when_dump_succeeds (env : StopEnv) (fs : FS)
    (content : String) (pid : Int)
    (hpid : fs.pidFile = some content) (hparse : pyInt content = some pid)
    (hcast : env.castAvailable = true) (hdump : env.dumpOk = true)
    (hkill : env.killResult pid ≠ .otherError) :
    ∃ out : StopOutcome, stop_anvil env fs = some out ∧ out.fs.pidFile = none ∧
      stop_anvil env out.fs = some ⟨.notRunning, out.fs, []⟩ := by
  cases hk : env.killResult pid with
  | ok =>
    refine ⟨⟨.success, { fs with stateFile := some env.dumpOutput, pidFile := none },
      [pid]⟩, ?_, rfl, ?_⟩
    · simp [stop_anvil, hpid, hparse, hcast, hdump, hk]
    · simp [stop_anvil]
  | noProcess =>
    refine ⟨⟨.staleRemoved, { fs with stateFile := some env.dumpOutput, pidFile := none },
      [pid]⟩, ?_, rfl, ?_⟩
    · simp [stop_anvil, hpid, hparse, hcast, hdump, hk]
    · simp [stop_anvil]
  | otherError => exact absurd hk hkill

theorem C4_amended_witness :
    pyInt "11" = some 11 ∧
    ∃ out : StopOutcome,
      stop_anvil ⟨true, true, "blob", "", fun _ => KillOutcome.ok⟩
          ⟨some "11", none, none⟩ = some out ∧
      out.fs.pidFile = none ∧
      stop_anvil ⟨true, true, "blob", "", fun _ => KillOutcome.ok⟩ out.fs =
        some ⟨.notRunning, out.fs, []⟩ :=
  ⟨by decide,
    C4_amended_idempotent_when_dump_succeeds _ _ "11" 11 rfl (by decide) rfl rfl
      (by decide)⟩

/-- Claim C5 (confirmed): when no ProcessRecord exists and the launch
fails — the binary missing from the PATH (reported as `binaryNotFound`)
or any other spawn error (reported as `spawnFailed`) — `start()` surfaces
the failure and leaves no PID file behind (the PID file is written only
after a successful spawn). -/
theorem C5_spawn_failure_leaves_no_record (env : StartEnv) (fs : FS)
    (hno : fs.pidFile = none)
    (hfail : env.anvilAvailable = false ∨ env.spawnOk = false) :
    start_anvil env fs =
      ((if env.anvilAvailable = false then StartResult.binaryNotFound
        else .spawnFailed),
       { fs with logFile := some (fs.logFile.getD "") }) ∧
    ((start_anvil env fs).2).pidFile = none := by
  by_cases ha : env.anvilAvailable = false
  · constructor
    · simp [start_anvil, hno, ha]
    · simp [start_anvil, hno, ha]
  · rcases hfail with h | h
    · exact absurd h ha
    · constructor
      · simp [start_anvil, hno, ha, h]
      · simp [start_anvil, hno, ha, h]

theorem C5_witness :
    (⟨none, none, none⟩ : FS).pidFile = none ∧
    start_anvil ⟨false, true, 5⟩ ⟨none, none, none⟩ =
      (.binaryNotFound, ⟨none, none, some ""⟩) ∧
    ((start_anvil ⟨false, true, 5⟩ ⟨none, none, none⟩).2).pidFile = none :=
  ⟨rfl,
    (C5_spawn_failure_leaves_no_record ⟨false, true, 5⟩ ⟨none, none, none⟩ rfl
      (Or.inl rfl)).1,
    (C5_spawn_failure_leaves_no_record ⟨false, true, 5⟩ ⟨none, none, none⟩ rfl
      (Or.inl rfl)).2⟩

/-- Claim C6 (confirmed): the launch-mode decision depends only on the
presence of the snapshot file — no snapshot file gives the fresh-chain
command, a snapshot file of any content gives the same command extended
with `--load-state anvil_state.json` — and a successful `start()` spawns
exactly that command. -/
theorem C6_launch_mode_only_on_snapshot_presence (fs : FS) :
    (fs.stateFile = none →
      launchCommand fs = ["anvil", "--host", "0.0.0.0", "--port", "8545"]) ∧
    (∀ content, fs.stateFile = some content →
      launchCommand fs = ["anvil", "--host", "0.0.0.0", "--port", "8545",
        "--load-state", "anvil_state.json"]) ∧
    (∀ env : StartEnv, fs.pidFile = none → env.anvilAvailable = true →
      env.spawnOk = true →
      (start_anvil env fs).1 = .started env.newPid (launchCommand fs)) := by
  refine ⟨fun h => ?_, fun content h => ?_, fun env h1 h2 h3 => ?_⟩
  · simp only [launchCommand, h, Option.isSome_none, Bool.false_eq_true, if_false]
    rfl
  · simp only [launchCommand, h, Option.isSome_some, if_true]
    rfl
  · simp [start_anvil, h1, h2, h3]

theorem C6_witness :
    launchCommand ⟨none, none, none⟩ = ["anvil", "--host", "0.0.0.0", "--port", "8545"] ∧
    launchCommand ⟨none, some "garbage content", none⟩ =
      ["anvil", "--host", "0.0.0.0", "--port", "8545",
        "--load-state", "anvil_state.json"] ∧
    (start_anvil ⟨true, true, 77⟩ ⟨none, some "garbage content", none⟩).1 =
      .started 77 (launchCommand ⟨none, some "garbage content", none⟩) :=
  ⟨(C6_launch_mode_only_on_snapshot_presence ⟨none, none, none⟩).1 rfl,
    (C6_launch_mode_only_on_snapshot_presence ⟨none, some "garbage content", none⟩).2.1
      "garbage content" rfl,
    (C6_launch_mode_only_on_snapshot_presence ⟨none, some "garbage content", none⟩).2.2
      ⟨true, true, 77⟩ rfl rfl rfl⟩

/-- Claim C7, as stated, is false: a PID file whose content is not a
valid integer makes `stop()` raise an unhandled `ValueError` (the
`int(f.read())` at line 80 runs before the `try` block), crashing the
supervisor — modelled as the `none` result. -/
theorem C7_counterexample :
    stop_anvil ⟨true, true, "", "", fun _ => KillOutcome.ok⟩
      ⟨some "abc", none, none⟩ = none := rfl

/-- Claim C7 (amended): every failure inside the `try` blocks of
`start()`, `stop()` and the log-follow operation is handled, but `stop()`
parses the PID file content before entering its `try` block: the
supervisor crashes exactly when the PID file is present with content that
is not a valid integer. -/
theorem C7_amended_crash_iff_bad_pid_content (env : StopEnv) (fs : FS) :
    stop_anvil env fs = none ↔
      ∃ content, fs.pidFile = some content ∧ pyInt content = none := by
  cases h : fs.pidFile with
  | none => simp [stop_anvil, h]
  | some c =>
    cases hi : pyInt c with
    | none =>
      simp only [stop_anvil, h, hi]
      exact ⟨fun _ => ⟨c, rfl, hi⟩, fun _ => trivial⟩
    | some pid =>
      constructor
      · intro hcrash
        exfalso
        revert hcrash
        simp only [stop_anvil, h, hi]
        split
        · simp
        · split
          · simp
          · cases env.killResult pid <;> simp
      · rintro ⟨c2, hc2, hp2⟩
        exfalso
        have hcc : c = c2 := Option.some.inj hc2
        rw [← hcc, hi] at hp2
        exact Option.noConfusion hp2

theorem C7_amended_witness :
    stop_anvil ⟨true, true, "", "", fun _ => KillOutcome.ok⟩
      ⟨some "12.0", none, none⟩ = none :=
  (C7_amended_crash_iff_bad_pid_content _ _).mpr ⟨"12.0", rfl, by decide⟩

/-- Claim C8, as stated, is false: the `subprocess.run` call that issues
the `anvil_dumpState` RPC during `stop()` passes no `timeout=` argument
at all. -/
theorem C8_counterexample : ¬ ∃ t : Nat, dumpStateRunCall.timeoutArg = some t := by
  rintro ⟨t, ht⟩
  simp [dumpStateRunCall] at ht

/-- Claim C8 (amended): the RPC state-dump call issued during `stop()` is
invoked with no timeout, so a hanging node would hang the stop operation
indefinitely. -/
theorem C8_amended_dump_has_no_timeout :
    dumpStateRunCall.timeoutArg = none ∧ dumpStateRunCall.args = command_dump :=
  ⟨rfl, rfl⟩

/-- Claim C9, as stated, is false: a successful `start()` over an
existing log file with content `"old"` leaves that content in place (the
log is opened with mode `'a'`), instead of truncating it to `""`. -/
theorem C9_counterexample :
    (start_anvil ⟨true, true, 4242⟩ ⟨none, none, some "old"⟩).2.logFile = some "old" ∧
    (some "old" : Option String) ≠ some "" := ⟨rfl, by decide⟩

/-- Claim C9 (amended): on every `start()` attempt that passes the
already-running check, the log file is opened in append mode: created
(empty) if absent, and left with its existing content if present — not
truncated. -/
theorem C9_amended_log_opened_in_append_mode (env : StartEnv) (fs : FS)
    (h : fs.pidFile = none) :
    (start_anvil env fs).2.logFile = some (fs.logFile.getD "") := by
  by_cases ha : env.anvilAvailable = false
  · simp [start_anvil, h, ha]
  · by_cases hs : env.spawnOk = false
    · simp [start_anvil, h, ha, hs]
    · simp [start_anvil, h, ha, hs]

theorem C9_amended_witness :
    (start_anvil ⟨true, true, 4242⟩ ⟨none, none, some "keepme"⟩).2.logFile =
      some ((some "keepme" : Option String).getD "") :=
  C9_amended_log_opened_in_append_mode ⟨true, true, 4242⟩ ⟨none, none, some "keepme"⟩ rfl

/-! ## Claim C10: eth_to_wei -/

/-- Claim C10, as stated, is false: the 29-digit input below parses as a
decimal number (an integer, so "multiplied by 10^18 and rounded to an
integer" is exactly the integer with 18 zeros appended), but the default
decimal context first rounds the coefficient to 28 significant digits, so
`eth_to_wei` returns a string ending in `...790` instead of `...789`. -/
theorem C10_counterexample :
    pyDecimalOfString "12345678901234567890123456789" =
      some (PyDec.finite false 12345678901234567890123456789 0) ∧
    eth_to_wei "12345678901234567890123456789" =
      some (some "12345678901234567890123456790000000000000000000") ∧
    wei_string_exact false 12345678901234567890123456789 0 =
      "12345678901234567890123456789000000000000000000" ∧
    ("12345678901234567890123456790000000000000000000" : String) ≠
      "12345678901234567890123456789000000000000000000" :=
  ⟨rfl, rfl, rfl, by decide⟩

/-- In the default context a finite value whose coefficient already fits
in the precision, and whose exponent is far from the overflow and
subnormal boundaries, is left unchanged by `_fix`. -/
theorem fixFinite_eq_of_small (neg : Bool) (c : Nat) (e : Int)
    (hd : natDigits c ≤ decPrec) (hlo : decEtiny ≤ e)
    (hhi : e ≤ decEmax - (decPrec : Int)) :
    fixFinite neg c e = .ok (.finite neg c e) := by
  by_cases hc : c = 0
  · subst hc
    dsimp only [fixFinite]
    rw [if_pos rfl]
    have hme : min (max e decEtiny) decEmax = e := by
      simp only [decEtiny, decEmin, decEmax, decPrec] at hlo hhi ⊢
      omega
    rw [hme]
  · have hdi : (natDigits c : Int) ≤ (decPrec : Int) := by exact_mod_cast hd
    dsimp only [fixFinite]
    rw [if_neg hc]
    have h1 : ¬ (decEtop < (natDigits c : Int) + e - (decPrec : Int)) := by
      simp only [decEtop, decEmax, decPrec] at hhi hdi ⊢
      omega
    rw [if_neg h1]
    have h2 : ¬ (e < max ((natDigits c : Int) + e - (decPrec : Int)) decEtiny) := by
      simp only [decEtiny, decEmin, decPrec] at hlo hdi ⊢
      omega
    rw [if_neg h2]

/-- Multiplying by `Decimal("1e18")` multiplies the coefficient by 1 and
adds 18 to the exponent before the context fix. -/
theorem ctxMul_e18 (neg : Bool) (c : Nat) (e : Int) :
    ctxMul (.finite neg c e) decimalOneE18 = fixFinite neg c (e + 18) := by
  show fixFinite (xor neg false) (c * 1) (e + 18) = fixFinite neg c (e + 18)
  rw [Bool.xor_false, Nat.mul_one]

/-- Claim C10 (amended): for an input string the `Decimal` constructor
accepts as the finite value `(-1)^neg * c * 10^e`, as long as the
coefficient has at most 28 significant digits and the exponent is
moderate, `eth_to_wei` returns exactly the decimal-digit string of
`s * 10^18` rounded half-to-even to an integer.  (Inputs with more than
28 significant digits are first rounded to 28 digits by the default
context, as in the counterexample; special values parse to NaN/Infinity
strings; strings the constructor rejects give `None`.) -/
theorem C10_amended_exact_within_context_precision (s : String) (neg : Bool)
    (c : Nat) (e : Int)
    (hp : pyDecimalOfString s = some (.finite neg c e))
    (hd : natDigits c ≤ 28) (hlo : -100000 ≤ e) (hhi : e ≤ 100000) :
    eth_to_wei s = some (some (wei_string_exact neg c e)) := by
  have hfix : fixFinite neg c (e + 18) = .ok (.finite neg c (e + 18)) := by
    apply fixFinite_eq_of_small
    · exact hd
    · simp only [decEtiny, decEmin, decPrec]
      omega
    · simp only [decEmax, decPrec]
      omega
  have hmul := (ctxMul_e18 neg c e).trans hfix
  simp only [eth_to_wei, hp, hmul]
  rfl

theorem C10_amended_witness :
    pyDecimalOfString "1.5" = some (PyDec.finite false 15 (-1)) ∧
    natDigits 15 ≤ 28 ∧
    eth_to_wei "1.5" = some (some (wei_string_exact false 15 (-1))) :=
  ⟨rfl, by decide,
    C10_amended_exact_within_context_precision "1.5" false 15 (-1) rfl (by decide)
      (by decide) (by decide)⟩
